import Mathlib

/-!
Shallow embedding of the usage accounting and quota enforcement subsystem of
`biz2bricks_core` (`services/usage_service.py` together with the table models
it reads, `models/usage.py`, `models/core.py`, `models/documents.py`).

The database is modelled as an explicit state value (`DBState`); each service
method becomes a pure Lean function on that state, returning the method's
result and (for the mutating methods) the successor state.  Python integers
are `Int`, SQL `NULL` is `Option`, Python `float` percentages are modelled as
exact rationals `ℚ` (every numeric value appearing in the properties below is
exactly representable), and `round(x, 2)` is modelled as round-half-to-even at
two decimals, which is Python's rounding mode.
-/

namespace Biz2Bricks

/-- Organization record (`models/core.py`, `OrganizationModel`): only the
columns the usage service reads.  `plan_type` is a non-nullable string with
default `"free"`; `plan_id` is a nullable foreign key into subscription
plans. -/
structure Organization where
  id : String
  plan_type : String
  plan_id : Option String
deriving Repr, DecidableEq

/-- Subscription plan (`models/usage.py`, `SubscriptionPlanModel`): columns the
usage service reads.  `monthly_token_limit` is a non-nullable column;
`max_storage_mb` is nullable (NULL = unlimited). -/
structure SubscriptionPlan where
  id : String
  monthly_token_limit : Int
  max_storage_mb : Option Int
deriving Repr, DecidableEq

/-- Per-organization counter row (`models/usage.py`, `UsageLimitsModel`):
columns the usage service touches.  The service guards every read of these
columns against NULL (`x or 0`, `is not None`), so they are modelled as
`Option Int` even where the schema declares a default.  `storage_limit_bytes`
is declared in the schema ("Cached from plan") but is never read by the
service. -/
structure UsageLimitsRow where
  id : String
  organization_id : String
  monthly_token_limit : Option Int
  credit_used_this_period : Option Int
  storage_used_bytes : Option Int
  storage_limit_bytes : Option Int
deriving Repr, DecidableEq

/-- Document row (`models/documents.py`, `DocumentModel`): the columns the
usage service reads when summing storage. -/
structure Document where
  organization_id : String
  file_size : Int
  is_active : Bool
deriving Repr, DecidableEq

/-- Usage event row (`models/usage.py`, `UsageEventModel`).  `request_id` is a
nullable column with a UNIQUE constraint.  `extra_data` (the JSONB `metadata`
column) is opaque to every property below and is modelled as a key-value
list. -/
structure UsageEvent where
  id : String
  organization_id : String
  user_id : Option String
  request_id : Option String
  feature : String
  model : String
  provider : String
  input_tokens : Int
  output_tokens : Int
  cached_tokens : Int
  input_cost : ℚ
  output_cost : ℚ
  extra_data : List (String × String)
deriving Repr, DecidableEq

/-- The persisted database state visible to the usage service.  `orgs` and
`plans` are keyed by primary key; `usageRows` is keyed by `organization_id`,
whose UNIQUE constraint (`models/usage.py`) makes the row-per-organization
lookup of `scalar_one_or_none` a partial map.  `documents` and `events` are
the full tables. -/
structure DBState where
  orgs : String → Option Organization
  plans : String → Option SubscriptionPlan
  usageRows : String → Option UsageLimitsRow
  documents : List Document
  events : List UsageEvent

/-- Result dataclass `StorageLimitResult` (`usage_service.py` lines 37-46). -/
structure StorageLimitResult where
  allowed : Bool
  current_bytes : Int
  limit_bytes : Option Int
  remaining_bytes : Option Int
  percentage_used : ℚ
  tier : String
deriving Repr, DecidableEq

/-- Result dataclass `TokenLimitResult` (`usage_service.py` lines 49-57). -/
structure TokenLimitResult where
  allowed : Bool
  tokens_used_this_period : Int
  monthly_limit : Option Int
  remaining_tokens : Option Int
  percentage_used : ℚ
deriving Repr, DecidableEq

/-- Round-half-to-even to an integer, the rounding Python's `round` uses. -/
def roundHalfEven (q : ℚ) : Int :=
  let f : Int := ⌊q⌋
  if q - f < 1 / 2 then f
  else if 1 / 2 < q - f then f + 1
  else if f % 2 = 0 then f else f + 1

/-- Python `round(x, 2)`: round-half-to-even at two decimal places. -/
def pyRound2 (q : ℚ) : ℚ := (roundHalfEven (q * 100) : ℚ) / 100

/-- The `STORAGE_TIERS` dict (`usage_service.py` lines 71-76); `none` models a
key absent from the dict. -/
def STORAGE_TIERS (tier : String) : Option Int :=
  if tier = "free" then some (100 * 1024 * 1024)
  else if tier = "starter" then some (1024 * 1024 * 1024)
  else if tier = "pro" then some (10 * 1024 * 1024 * 1024)
  else if tier = "business" then some (100 * 1024 * 1024 * 1024)
  else none

/-- `self.STORAGE_TIERS.get(tier, self.STORAGE_TIERS["free"])` (line 125):
unrecognized tiers fall back to the free-tier limit. -/
def tierLimit (tier : String) : Int :=
  (STORAGE_TIERS tier).getD (100 * 1024 * 1024)

/-- Lines 122-125 of `check_storage_limit`: `if plan and plan.max_storage_mb:`
is a Python truthiness test, so the plan limit is used only when the plan row
is present and `max_storage_mb` is neither NULL nor 0; otherwise the tier
default applies. -/
def resolve_storage_limit (plan : Option SubscriptionPlan) (tier : String) : Int :=
  match plan with
  | some p =>
      match p.max_storage_mb with
      | some mb => if mb ≠ 0 then mb * 1024 * 1024 else tierLimit tier
      | none => tierLimit tier
  | none => tierLimit tier

/-- `_compute_storage_from_documents` (lines 431-438):
`SELECT coalesce(sum(file_size), 0) FROM documents WHERE organization_id =
org_id AND is_active = true`.  The sum of the empty set is 0 via `coalesce`,
and the trailing `or 0` maps 0 to 0. -/
def compute_storage_from_documents (db : DBState) (org_id : String) : Int :=
  ((db.documents.filter
      (fun d => d.organization_id == org_id && d.is_active)).map
    (fun d => d.file_size)).sum

/-- The pure decision arithmetic of `check_storage_limit` (lines 142-145 and
the `round(percentage, 2)` of line 152), factored out of the state access. -/
structure StorageDecision where
  allowed : Bool
  remaining : Int
  percentage : ℚ
deriving Repr, DecidableEq

/-- `total_after = current_bytes + additional_bytes`,
`allowed = total_after <= limit_bytes`,
`remaining = max(0, limit_bytes - current_bytes)`,
`percentage = (current_bytes / limit_bytes * 100) if limit_bytes > 0 else 0`,
rounded to 2 decimals. -/
def storage_decision (current_bytes limit_bytes additional_bytes : Int) :
    StorageDecision :=
  let total_after := current_bytes + additional_bytes
  { allowed := decide (total_after ≤ limit_bytes)
    remaining := max 0 (limit_bytes - current_bytes)
    percentage :=
      pyRound2 (if 0 < limit_bytes
        then (current_bytes : ℚ) / (limit_bytes : ℚ) * 100 else 0) }

/-- `tier = org.plan_type or "free"` (line 119): the empty string is the only
falsy non-NULL string, so it alone falls back to `"free"`. -/
def org_tier (org : Organization) : String :=
  if org.plan_type = "" then "free" else org.plan_type

/-- Lines 127-140 of `check_storage_limit`: current usage is the counter
row's `storage_used_bytes` when the row exists with a non-NULL value, else
the document-table fallback. -/
def current_storage_bytes (db : DBState) (org_id : String) : Int :=
  match db.usageRows org_id with
  | some u =>
      match u.storage_used_bytes with
      | some b => b
      | none => compute_storage_from_documents db org_id
  | none => compute_storage_from_documents db org_id

/-- `UsageService.check_storage_limit` (lines 78-154).  The org/plan outer
join returns no row exactly when the organization does not exist, giving the
hard-coded denial of lines 107-116. -/
def check_storage_limit (db : DBState) (org_id : String)
    (additional_bytes : Int) : StorageLimitResult :=
  match db.orgs org_id with
  | none =>
      { allowed := false, current_bytes := 0, limit_bytes := some 0,
        remaining_bytes := some 0, percentage_used := 100, tier := "unknown" }
  | some org =>
      let tier := org_tier org
      let plan := org.plan_id.bind db.plans
      let limit_bytes := resolve_storage_limit plan tier
      let current_bytes := current_storage_bytes db org_id
      let d := storage_decision current_bytes limit_bytes additional_bytes
      { allowed := d.allowed, current_bytes := current_bytes,
        limit_bytes := some limit_bytes, remaining_bytes := some d.remaining,
        percentage_used := d.percentage, tier := tier }

/-- `check_storage_limit` as a transaction on the database state: its body
issues only SELECT statements (lines 94-154 contain no `session.add` and no
attribute mutation), so the state it commits is the state it was given. -/
def check_storage_limitS (db : DBState) (org_id : String)
    (additional_bytes : Int) : StorageLimitResult × DBState :=
  (check_storage_limit db org_id additional_bytes, db)

/-- `UsageService.update_storage_used` (lines 156-197).  Locked read of the
counter row, then `new_value = max(0, (usage.storage_used_bytes or 0) +
delta_bytes)` written back, or a fresh row `UsageLimitsModel(id=str(uuid4()),
organization_id=org_id, storage_used_bytes=max(0, delta_bytes))` (the other
columns take their schema defaults: `credit_used_this_period` 0, the nullable
limits NULL).  `freshId` stands for the `uuid4()` value. -/
def update_storage_used (db : DBState) (org_id : String) (delta_bytes : Int)
    (freshId : String) : Int × DBState :=
  match db.usageRows org_id with
  | some u =>
      let new_value := max 0 (u.storage_used_bytes.getD 0 + delta_bytes)
      (new_value,
        { db with usageRows := fun o =>
            if o = org_id then
              some { u with storage_used_bytes := some new_value }
            else db.usageRows o })
  | none =>
      let new_value := max 0 delta_bytes
      (new_value,
        { db with usageRows := fun o =>
            if o = org_id then
              some { id := freshId, organization_id := org_id,
                     monthly_token_limit := none,
                     credit_used_this_period := some 0,
                     storage_used_bytes := some new_value,
                     storage_limit_bytes := none }
            else db.usageRows o })

/-- Sequential application of `update_storage_used` with a list of deltas
(the repeated-commit pattern of the testable properties). -/
def apply_storage_deltas (db : DBState) (org_id : String) (ds : List Int)
    (freshId : String) : DBState :=
  ds.foldl (fun s d => (update_storage_used s org_id d freshId).2) db

/-- `UsageService.recalculate_storage` (lines 199-232): recompute the sum of
active document sizes and upsert it —
`INSERT ... ON CONFLICT (organization_id) DO UPDATE SET storage_used_bytes =
current`.  On conflict only `storage_used_bytes` is overwritten; an inserted
row carries the fresh id and schema defaults for the other columns. -/
def recalculate_storage (db : DBState) (org_id : String) (freshId : String) :
    Int × DBState :=
  let current := compute_storage_from_documents db org_id
  (current,
    { db with usageRows := fun o =>
        if o = org_id then
          some (match db.usageRows org_id with
            | some u => { u with storage_used_bytes := some current }
            | none =>
                { id := freshId, organization_id := org_id,
                  monthly_token_limit := none,
                  credit_used_this_period := some 0,
                  storage_used_bytes := some current,
                  storage_limit_bytes := none })
        else db.usageRows o })

/-- `UsageService.log_token_usage` (lines 234-298).  The insert of the new
`UsageEventModel` row is flushed inside a `try`; the UNIQUE constraint on
`usage_events.request_id` (`models/usage.py` line 93) makes the flush raise
when a row with the same non-NULL `request_id` already exists, the session
rolls back, and the `except` branch returns `None` with the state unchanged.
On success the fresh event id is returned.  `freshId` stands for the
`uuid4()` value; `extra_data or {}` is the `getD []`. -/
def log_token_usage (db : DBState) (freshId : String) (org_id : String)
    (user_id : Option String) (feature : String) (model : String)
    (provider : String) (input_tokens output_tokens : Int)
    (input_cost output_cost : ℚ) (cached_tokens : Int)
    (request_id : Option String)
    (extra_data : Option (List (String × String))) :
    Option String × DBState :=
  let event : UsageEvent :=
    { id := freshId, organization_id := org_id, user_id := user_id,
      request_id := request_id, feature := feature,
      model := model, provider := provider, input_tokens := input_tokens,
      output_tokens := output_tokens, cached_tokens := cached_tokens,
      input_cost := input_cost, output_cost := output_cost,
      extra_data := extra_data.getD [] }
  match request_id with
  | some r =>
      if db.events.any (fun e => e.request_id == some r) then (none, db)
      else (some freshId, { db with events := db.events ++ [event] })
  | none => (some freshId, { db with events := db.events ++ [event] })

/-- Number of persisted usage-event rows carrying a given `request_id`. -/
def count_request (events : List UsageEvent) (r : String) : Nat :=
  events.countP (fun e => e.request_id == some r)

/-- Python `usage.monthly_token_limit or (plan.monthly_token_limit if plan
else None)` (lines 341-343): NULL and 0 are both falsy, so a stored 0 falls
through to the plan limit (`SubscriptionPlanModel.monthly_token_limit` is
non-nullable). -/
def resolved_monthly_limit (row_limit : Option Int)
    (plan : Option SubscriptionPlan) : Option Int :=
  match row_limit with
  | some v =>
      if v = 0 then plan.map SubscriptionPlan.monthly_token_limit else some v
  | none => plan.map SubscriptionPlan.monthly_token_limit

/-- `UsageService.check_token_limit` (lines 300-366).  The query inner-joins
the counter row with its organization and outer-joins the plan; it yields no
row exactly when the counter row or the organization is missing, in which
case the unlimited result of lines 330-338 is returned.  Otherwise
`tokens_used = usage.credit_used_this_period or 0`, the limit is resolved as
in `resolved_monthly_limit`, a NULL limit short-circuits to allowed, and the
bounded case mirrors the storage arithmetic. -/
def check_token_limit (db : DBState) (org_id : String)
    (estimated_tokens : Int) : TokenLimitResult :=
  match db.usageRows org_id, db.orgs org_id with
  | some u, some org =>
      let plan := org.plan_id.bind db.plans
      let monthly_limit := resolved_monthly_limit u.monthly_token_limit plan
      let tokens_used := u.credit_used_this_period.getD 0
      match monthly_limit with
      | none =>
          { allowed := true, tokens_used_this_period := tokens_used,
            monthly_limit := none, remaining_tokens := none,
            percentage_used := 0 }
      | some l =>
          let total_after := tokens_used + estimated_tokens
          { allowed := decide (total_after ≤ l),
            tokens_used_this_period := tokens_used,
            monthly_limit := some l,
            remaining_tokens := some (max 0 (l - tokens_used)),
            percentage_used :=
              pyRound2 (if 0 < l
                then (tokens_used : ℚ) / (l : ℚ) * 100 else 0) }
  | _, _ =>
      { allowed := true, tokens_used_this_period := 0, monthly_limit := none,
        remaining_tokens := none, percentage_used := 0 }

/-- `UsageService.update_tokens_used` (lines 368-401).  Locked read, then
`new_value = (usage.credit_used_this_period or 0) + tokens` written back —
with no floor, unlike the storage update — or a fresh row holding
`credit_used_this_period = tokens` (other columns take schema defaults). -/
def update_tokens_used (db : DBState) (org_id : String) (tokens : Int)
    (freshId : String) : Int × DBState :=
  match db.usageRows org_id with
  | some u =>
      let new_value := u.credit_used_this_period.getD 0 + tokens
      (new_value,
        { db with usageRows := fun o =>
            if o = org_id then
              some { u with credit_used_this_period := some new_value }
            else db.usageRows o })
  | none =>
      (tokens,
        { db with usageRows := fun o =>
            if o = org_id then
              some { id := freshId, organization_id := org_id,
                     monthly_token_limit := none,
                     credit_used_this_period := some tokens,
                     storage_used_bytes := some 0,
                     storage_limit_bytes := none }
            else db.usageRows o })

/-- The persisted token counter visible before/after an update: the counter
row's `credit_used_this_period` with the service's `or 0` read, 0 when no row
exists. -/
def current_tokens_counter (db : DBState) (org_id : String) : Int :=
  match db.usageRows org_id with
  | some u => u.credit_used_this_period.getD 0
  | none => 0

/-- Overwrite the never-read `storage_limit_bytes` cache column of an
organization's counter row, leaving everything else untouched: used to state
that `check_storage_limit` does not depend on that column. -/
def set_cached_limit (db : DBState) (org_id : String) (v : Option Int) :
    DBState :=
  { db with usageRows := fun o =>
      if o = org_id then
        (db.usageRows o).map (fun u => { u with storage_limit_bytes := v })
      else db.usageRows o }

/-- A free-tier organization with no plan row. -/
def orgFree : Organization := { id := "o1", plan_type := "free", plan_id := none }

/-- A database with no organizations, counter rows, documents or events. -/
def dbEmpty : DBState :=
  { orgs := fun _ => none, plans := fun _ => none, usageRows := fun _ => none,
    documents := [], events := [] }

/-- Counter row configured as in the spec scenario: cached
`storage_limit_bytes = 1_000_000`, `storage_used_bytes = 900_000`. -/
def rowCached : UsageLimitsRow :=
  { id := "u1", organization_id := "o1", monthly_token_limit := none,
    credit_used_this_period := some 0, storage_used_bytes := some 900000,
    storage_limit_bytes := some 1000000 }

/-- The spec scenario state: a free-tier organization whose counter row
carries the cached limit `1_000_000` and usage `900_000`. -/
def dbCached : DBState :=
  { orgs := fun s => if s = "o1" then some orgFree else none,
    plans := fun _ => none,
    usageRows := fun s => if s = "o1" then some rowCached else none,
    documents := [], events := [] }

/-- Counter row whose usage is exactly twice the free-tier limit. -/
def rowDouble : UsageLimitsRow :=
  { id := "u1", organization_id := "o1", monthly_token_limit := none,
    credit_used_this_period := some 0,
    storage_used_bytes := some 209715200, storage_limit_bytes := none }

/-- A free-tier organization using 200% of its storage limit. -/
def dbDouble : DBState :=
  { orgs := fun s => if s = "o1" then some orgFree else none,
    plans := fun _ => none,
    usageRows := fun s => if s = "o1" then some rowDouble else none,
    documents := [], events := [] }

/-- Document table for the fallback scenario: three active documents of 10,
20 and 30 bytes for the organization, one inactive document and one active
document of another organization. -/
def docsFallback : List Document :=
  [ { organization_id := "o1", file_size := 10, is_active := true },
    { organization_id := "o1", file_size := 20, is_active := true },
    { organization_id := "o1", file_size := 30, is_active := true },
    { organization_id := "o1", file_size := 5, is_active := false },
    { organization_id := "o2", file_size := 100, is_active := true } ]

/-- The fallback scenario state: organization present, no counter row, the
document table above. -/
def dbFallback : DBState :=
  { orgs := fun s => if s = "o1" then some orgFree else none,
    plans := fun _ => none, usageRows := fun _ => none,
    documents := docsFallback, events := [] }

/-- Counter row at `450_000` tokens of a `500_000` monthly limit. -/
def rowTok : UsageLimitsRow :=
  { id := "u1", organization_id := "o1", monthly_token_limit := some 500000,
    credit_used_this_period := some 450000, storage_used_bytes := some 0,
    storage_limit_bytes := none }

/-- The token scenario state. -/
def dbTok : DBState :=
  { orgs := fun s => if s = "o1" then some orgFree else none,
    plans := fun _ => none,
    usageRows := fun s => if s = "o1" then some rowTok else none,
    documents := [], events := [] }

/-- Counter row with 5 tokens used, no limits. -/
def rowFive : UsageLimitsRow :=
  { id := "u1", organization_id := "o1", monthly_token_limit := none,
    credit_used_this_period := some 5, storage_used_bytes := some 0,
    storage_limit_bytes := none }

/-- State holding `rowFive` for the organization. -/
def dbFive : DBState :=
  { orgs := fun s => if s = "o1" then some orgFree else none,
    plans := fun _ => none,
    usageRows := fun s => if s = "o1" then some rowFive else none,
    documents := [], events := [] }

/-- Counter row with 7 storage bytes used. -/
def rowSeven : UsageLimitsRow :=
  { id := "u1", organization_id := "o1", monthly_token_limit := none,
    credit_used_this_period := some 0, storage_used_bytes := some 7,
    storage_limit_bytes := none }

/-- State holding `rowSeven` for the organization. -/
def dbSeven : DBState :=
  { orgs := fun s => if s = "o1" then some orgFree else none,
    plans := fun _ => none,
    usageRows := fun s => if s = "o1" then some rowSeven else none,
    documents := [], events := [] }

/-- A persisted usage event carrying `request_id = "r1"`. -/
def evR1 : UsageEvent :=
  { id := "e0", organization_id := "o1", user_id := none,
    request_id := some "r1", feature := "chat", model := "m1",
    provider := "prov", input_tokens := 1, output_tokens := 2,
    cached_tokens := 0, input_cost := 0, output_cost := 0, extra_data := [] }

/-- A state whose event table already holds `evR1`. -/
def dbEvent : DBState :=
  { orgs := fun _ => none, plans := fun _ => none, usageRows := fun _ => none,
    documents := [], events := [evR1] }

/-! ### Helper lemmas -/

theorem tierLimit_pos (t : String) : 0 < tierLimit t := by
  simp only [tierLimit, STORAGE_TIERS]
  split_ifs <;> norm_num

theorem tierLimit_of_unknown (t : String) (h : STORAGE_TIERS t = none) :
    tierLimit t = 100 * 1024 * 1024 := by
  simp [tierLimit, h]

theorem resolve_storage_limit_ne_zero (plan : Option SubscriptionPlan)
    (tier : String) : resolve_storage_limit plan tier ≠ 0 := by
  have hpos := tierLimit_pos tier
  rcases plan with _ | p
  · simpa [resolve_storage_limit] using hpos.ne.symm
  · rcases hmb : p.max_storage_mb with _ | mb
    · simpa [resolve_storage_limit, hmb] using hpos.ne.symm
    · by_cases h : mb = 0
      · simpa [resolve_storage_limit, hmb, h] using hpos.ne.symm
      · simp only [resolve_storage_limit, hmb, if_pos h, ne_eq, if_neg]
        intro hc
        rcases Int.mul_eq_zero.mp hc with h1 | h2
        · rcases Int.mul_eq_zero.mp h1 with h3 | h4
          · exact h h3
          · norm_num at h4
        · norm_num at h2

/-! ### C9: organization not found means explicit denial -/

/-- C9: for every `org_id` with no organization record, `check_storage_limit`
returns (rather than raising) the explicit denial result: `allowed = false`,
sentinel tier `"unknown"`, with structured usage detail (current 0, limit 0,
remaining 0, percentage 100). -/
theorem check_storage_limit_org_not_found (db : DBState) (org_id : String)
    (additional_bytes : Int) (h : db.orgs org_id = none) :
    check_storage_limit db org_id additional_bytes =
      { allowed := false, current_bytes := 0, limit_bytes := some 0,
        remaining_bytes := some 0, percentage_used := 100,
        tier := "unknown" } := by
  simp [check_storage_limit, h]

/-- Witness for C9 at a concrete state with no organizations. -/
theorem check_storage_limit_org_not_found_witness :
    check_storage_limit dbEmpty "missing" 5 =
      { allowed := false, current_bytes := 0, limit_bytes := some 0,
        remaining_bytes := some 0, percentage_used := 100,
        tier := "unknown" } :=
  check_storage_limit_org_not_found dbEmpty "missing" 5 rfl

/-! ### C1: the storage admission decision -/

/-- C1 counterexample: the spec's scenario configures the counter row's
cached `storage_limit_bytes = 1_000_000` with `storage_used_bytes = 900_000`
and expects `remaining_bytes = 100_000` from a 50_000-byte check; on the code
the cached column is never read — the limit is resolved from the plan/tier
(free tier: 104_857_600) — so the check returns `remaining_bytes =
103_957_600`, not `100_000`. -/
theorem check_storage_limit_cached_limit_counterexample :
    rowCached.storage_limit_bytes = some 1000000 ∧
    rowCached.storage_used_bytes = some 900000 ∧
    (check_storage_limit dbCached "o1" 50000).allowed = true ∧
    (check_storage_limit dbCached "o1" 50000).remaining_bytes =
      some 103957600 ∧
    (check_storage_limit dbCached "o1" 50000).remaining_bytes ≠
      some 100000 :=
  ⟨rfl, rfl, by decide, by decide, by decide⟩

/-- C1 (amended): for every found organization the check's verdict is
`allowed = true` exactly when `current_bytes + additional_bytes <=
limit_bytes`, where `limit_bytes` is the resolved (never null) limit; the
cached `storage_limit_bytes` column of the counter row is ignored by the
check; and the decision arithmetic at `current = 900_000`,
`limit = 1_000_000` yields `allowed = true`, `remaining = 100_000` for
50_000 more bytes and `allowed = false` for 200_000 more bytes. -/
theorem check_storage_limit_allowed_iff (db : DBState) (org_id : String)
    (additional_bytes : Int) (org : Organization)
    (h : db.orgs org_id = some org) :
    (∃ L, (check_storage_limit db org_id additional_bytes).limit_bytes =
        some L ∧
      ((check_storage_limit db org_id additional_bytes).allowed = true ↔
        (check_storage_limit db org_id additional_bytes).current_bytes +
          additional_bytes ≤ L)) ∧
    (∀ v, check_storage_limit (set_cached_limit db org_id v) org_id
        additional_bytes = check_storage_limit db org_id additional_bytes) ∧
    (storage_decision 900000 1000000 50000).allowed = true ∧
    (storage_decision 900000 1000000 50000).remaining = 100000 ∧
    (storage_decision 900000 1000000 200000).allowed = false := by
  refine ⟨⟨resolve_storage_limit (org.plan_id.bind db.plans) (org_tier org),
      by simp [check_storage_limit, h], ?_⟩, ?_, by decide, by decide,
    by decide⟩
  · simp [check_storage_limit, h, storage_decision]
  · intro v
    have hcur : current_storage_bytes (set_cached_limit db org_id v) org_id =
        current_storage_bytes db org_id := by
      cases hu : db.usageRows org_id with
      | none =>
          simp [current_storage_bytes, set_cached_limit, hu,
            compute_storage_from_documents]
      | some u =>
          cases hb : u.storage_used_bytes with
          | some b => simp [current_storage_bytes, set_cached_limit, hu, hb]
          | none =>
              simp [current_storage_bytes, set_cached_limit, hu, hb,
                compute_storage_from_documents]
    have horgs : (set_cached_limit db org_id v).orgs org_id = some org := h
    have hplans : (set_cached_limit db org_id v).plans = db.plans := rfl
    simp only [check_storage_limit, horgs, h, hcur, hplans]

/-- Witness for C1 at the concrete scenario state. -/
theorem check_storage_limit_allowed_iff_witness :
    (∃ L, (check_storage_limit dbCached "o1" 50000).limit_bytes = some L ∧
      ((check_storage_limit dbCached "o1" 50000).allowed = true ↔
        (check_storage_limit dbCached "o1" 50000).current_bytes + 50000 ≤ L)) ∧
    (∀ v, check_storage_limit (set_cached_limit dbCached "o1" v) "o1" 50000 =
      check_storage_limit dbCached "o1" 50000) ∧
    (storage_decision 900000 1000000 50000).allowed = true ∧
    (storage_decision 900000 1000000 50000).remaining = 100000 ∧
    (storage_decision 900000 1000000 200000).allowed = false :=
  check_storage_limit_allowed_iff dbCached "o1" 50000 orgFree (by decide)

/-! ### C5: the percentage computation -/

/-- C5 counterexample: the claim says `percentage_used` is clamped; on the
code it is not — a free-tier organization with `storage_used_bytes =
209_715_200` (twice the 104_857_600-byte free limit) gets
`percentage_used = 200`, above any clamp at 100. -/
theorem check_storage_limit_percentage_counterexample :
    (check_storage_limit dbDouble "o1" 0).percentage_used = 200 ∧
    ¬ (check_storage_limit dbDouble "o1" 0).percentage_used ≤ 100 := by
  have h200 : (check_storage_limit dbDouble "o1" 0).percentage_used = 200 := by
    norm_num [check_storage_limit, dbDouble, rowDouble, orgFree, org_tier,
      current_storage_bytes, compute_storage_from_documents,
      storage_decision, resolve_storage_limit, tierLimit, STORAGE_TIERS,
      pyRound2, roundHalfEven]
  exact ⟨h200, by rw [h200]; norm_num⟩

/-- C5 (amended): in every result for a found organization,
`percentage_used = round2(current_bytes / limit_bytes * 100)` when the
resolved limit is positive and `0` otherwise, with no clamping; the resolved
limit is never `0`, so no division error can occur; the decision arithmetic
gives `80` at `current = 80`, `limit = 100`, and the zero-limit guard yields
`0` (not `100`). -/
theorem check_storage_limit_percentage_spec (db : DBState) (org_id : String)
    (additional_bytes : Int) (org : Organization)
    (h : db.orgs org_id = some org) :
    (∃ L, (check_storage_limit db org_id additional_bytes).limit_bytes =
        some L ∧ L ≠ 0 ∧
      (check_storage_limit db org_id additional_bytes).percentage_used =
        pyRound2 (if 0 < L then
          ((check_storage_limit db org_id additional_bytes).current_bytes : ℚ)
            / (L : ℚ) * 100
        else 0)) ∧
    (storage_decision 80 100 0).percentage = 80 ∧
    (storage_decision 80 0 0).percentage = 0 := by
  refine ⟨⟨resolve_storage_limit (org.plan_id.bind db.plans) (org_tier org),
      by simp [check_storage_limit, h],
      resolve_storage_limit_ne_zero _ _, ?_⟩, ?_, ?_⟩
  · simp [check_storage_limit, h, storage_decision]
  · norm_num [storage_decision, pyRound2, roundHalfEven]
  · norm_num [storage_decision, pyRound2, roundHalfEven]

/-- Witness for C5 at the concrete over-limit state. -/
theorem check_storage_limit_percentage_spec_witness :
    (∃ L, (check_storage_limit dbDouble "o1" 0).limit_bytes = some L ∧
      L ≠ 0 ∧
      (check_storage_limit dbDouble "o1" 0).percentage_used =
        pyRound2 (if 0 < L then
          ((check_storage_limit dbDouble "o1" 0).current_bytes : ℚ)
            / (L : ℚ) * 100
        else 0)) ∧
    (storage_decision 80 100 0).percentage = 80 ∧
    (storage_decision 80 0 0).percentage = 0 :=
  check_storage_limit_percentage_spec dbDouble "o1" 0 orgFree (by decide)

/-! ### C6: document-table fallback and read-only check -/

/-- C6: when the organization exists but has no counter row, the check's
`current_bytes` is the sum of `file_size` over the organization's active
documents, and the check is a pure read — the state it commits is the state
it was given; at the concrete state with active documents of 10, 20 and 30
bytes the fallback computes 60. -/
theorem check_storage_limit_fallback_pure (db : DBState) (org_id : String)
    (additional_bytes : Int) (org : Organization)
    (h1 : db.orgs org_id = some org) (h2 : db.usageRows org_id = none) :
    (check_storage_limit db org_id additional_bytes).current_bytes =
      compute_storage_from_documents db org_id ∧
    (check_storage_limitS db org_id additional_bytes).2 = db ∧
    (check_storage_limit dbFallback "o1" 0).current_bytes = 60 ∧
    (check_storage_limitS dbFallback "o1" 0).2 = dbFallback :=
  ⟨by simp [check_storage_limit, current_storage_bytes, h1, h2], rfl,
    by decide, rfl⟩

/-- Witness for C6 at the concrete fallback state. -/
theorem check_storage_limit_fallback_pure_witness :
    (check_storage_limit dbFallback "o1" 0).current_bytes =
      compute_storage_from_documents dbFallback "o1" ∧
    (check_storage_limitS dbFallback "o1" 0).2 = dbFallback ∧
    (check_storage_limit dbFallback "o1" 0).current_bytes = 60 ∧
    (check_storage_limitS dbFallback "o1" 0).2 = dbFallback :=
  check_storage_limit_fallback_pure dbFallback "o1" 0 orgFree (by decide) rfl

/-! ### C10: the resolved limit is never null -/

/-- C10: for every found organization the returned `limit_bytes` is non-null:
it is `max_storage_mb * 1024 * 1024` when the plan carries a truthy
`max_storage_mb`, and the built-in tier default otherwise, with unrecognized
tiers mapped to the free-tier default; every tier default is positive;
consequently `remaining_bytes` is a non-null value `>= 0` and the
`limit_bytes = null` branch is unreachable. -/
theorem check_storage_limit_limit_not_null (db : DBState) (org_id : String)
    (additional_bytes : Int) (org : Organization)
    (h : db.orgs org_id = some org) :
    (check_storage_limit db org_id additional_bytes).limit_bytes =
      some (resolve_storage_limit (org.plan_id.bind db.plans) (org_tier org)) ∧
    (∀ p mb, org.plan_id.bind db.plans = some p → p.max_storage_mb = some mb →
      mb ≠ 0 → (check_storage_limit db org_id additional_bytes).limit_bytes =
        some (mb * 1024 * 1024)) ∧
    (org.plan_id.bind db.plans = none →
      (check_storage_limit db org_id additional_bytes).limit_bytes =
        some (tierLimit (org_tier org))) ∧
    (∀ t, 0 < tierLimit t) ∧
    (∀ t, STORAGE_TIERS t = none → tierLimit t = 100 * 1024 * 1024) ∧
    (∃ R, (check_storage_limit db org_id additional_bytes).remaining_bytes =
      some R ∧ 0 ≤ R) ∧
    (check_storage_limit db org_id additional_bytes).limit_bytes ≠ none := by
  have hl : (check_storage_limit db org_id additional_bytes).limit_bytes =
      some (resolve_storage_limit (org.plan_id.bind db.plans)
        (org_tier org)) := by
    simp [check_storage_limit, h]
  refine ⟨hl, ?_, ?_, tierLimit_pos, tierLimit_of_unknown,
    ⟨max 0 (resolve_storage_limit (org.plan_id.bind db.plans) (org_tier org) -
        current_storage_bytes db org_id),
      by simp [check_storage_limit, h, storage_decision], le_max_left 0 _⟩,
    by rw [hl]; simp⟩
  · intro p mb hp hmb hne
    rw [hl]
    simp [resolve_storage_limit, hp, hmb, hne]
  · intro hp
    rw [hl]
    simp [resolve_storage_limit, hp]

/-- Witness for C10 at the concrete scenario state. -/
theorem check_storage_limit_limit_not_null_witness :
    (check_storage_limit dbCached "o1" 7).limit_bytes =
      some (resolve_storage_limit (orgFree.plan_id.bind dbCached.plans)
        (org_tier orgFree)) ∧
    (∀ p mb, orgFree.plan_id.bind dbCached.plans = some p →
      p.max_storage_mb = some mb → mb ≠ 0 →
      (check_storage_limit dbCached "o1" 7).limit_bytes =
        some (mb * 1024 * 1024)) ∧
    (orgFree.plan_id.bind dbCached.plans = none →
      (check_storage_limit dbCached "o1" 7).limit_bytes =
        some (tierLimit (org_tier orgFree))) ∧
    (∀ t, 0 < tierLimit t) ∧
    (∀ t, STORAGE_TIERS t = none → tierLimit t = 100 * 1024 * 1024) ∧
    (∃ R, (check_storage_limit dbCached "o1" 7).remaining_bytes =
      some R ∧ 0 ≤ R) ∧
    (check_storage_limit dbCached "o1" 7).limit_bytes ≠ none :=
  check_storage_limit_limit_not_null dbCached "o1" 7 orgFree (by decide)

/-! ### C2: committing storage deltas -/

/-- Invariant of repeated committing: starting from a counter row holding a
non-negative value, non-negative deltas accumulate additively (the
`max 0 _` floor never bites). -/
theorem apply_storage_deltas_sum (ds : List Int) :
    ∀ (db : DBState) (org_id freshId : String) (u : UsageLimitsRow) (c : Int),
      db.usageRows org_id = some u → u.storage_used_bytes = some c → 0 ≤ c →
      (∀ d ∈ ds, 0 ≤ d) →
      ((apply_storage_deltas db org_id ds freshId).usageRows org_id).map
        UsageLimitsRow.storage_used_bytes = some (some (c + ds.sum)) := by
  induction ds with
  | nil =>
      intro db org_id freshId u c hu hc _ _
      simp [apply_storage_deltas, hu, hc]
  | cons d rest ih =>
      intro db org_id freshId u c hu hc hcpos hd
      have hdpos : 0 ≤ d := hd d (List.mem_cons_self d rest)
      have hnew : (update_storage_used db org_id d freshId).2.usageRows
          org_id = some { u with
                          storage_used_bytes :=
                            some (max 0 (u.storage_used_bytes.getD 0 + d)) } := by
        simp [update_storage_used, hu]
      have hval : max 0 (u.storage_used_bytes.getD 0 + d) = c + d := by
        rw [hc]
        simp only [Option.getD_some]
        omega
      rw [hval] at hnew
      have hrec := ih (update_storage_used db org_id d freshId).2 org_id
        freshId _ (c + d) hnew rfl (by omega)
        (fun x hx => hd x (List.mem_cons_of_mem d hx))
      show ((apply_storage_deltas (update_storage_used db org_id d freshId).2
          org_id rest freshId).usageRows org_id).map
        UsageLimitsRow.storage_used_bytes = some (some (c + (d :: rest).sum))
      rw [hrec]
      simp [List.sum_cons]
      ring

/-- C2: when the counter row holds `old`, `update_storage_used` returns
`max 0 (old + delta)` and persists it; when no row exists it returns
`max 0 (delta)` and creates the row holding it; and sequentially applying a
non-empty list of non-negative deltas starting from no row leaves the counter
at `max 0 (sum of the deltas)`. -/
theorem update_storage_used_spec (db : DBState) (org_id freshId : String)
    (delta_bytes : Int) (u : UsageLimitsRow) (old : Int) :
    (db.usageRows org_id = some u → u.storage_used_bytes = some old →
      (update_storage_used db org_id delta_bytes freshId).1 =
        max 0 (old + delta_bytes) ∧
      ((update_storage_used db org_id delta_bytes freshId).2.usageRows
          org_id).map UsageLimitsRow.storage_used_bytes =
        some (some (max 0 (old + delta_bytes)))) ∧
    (db.usageRows org_id = none →
      (update_storage_used db org_id delta_bytes freshId).1 =
        max 0 delta_bytes ∧
      ((update_storage_used db org_id delta_bytes freshId).2.usageRows
          org_id).map UsageLimitsRow.storage_used_bytes =
        some (some (max 0 delta_bytes))) ∧
    (∀ ds : List Int, db.usageRows org_id = none → ds ≠ [] →
      (∀ d ∈ ds, 0 ≤ d) →
      ((apply_storage_deltas db org_id ds freshId).usageRows org_id).map
        UsageLimitsRow.storage_used_bytes = some (some (max 0 ds.sum))) := by
  refine ⟨?_, ?_, ?_⟩
  · intro hu hb
    refine ⟨?_, ?_⟩ <;> simp [update_storage_used, hu, hb]
  · intro hu
    refine ⟨?_, ?_⟩ <;> simp [update_storage_used, hu]
  · intro ds hu hne hd
    cases ds with
    | nil => exact absurd rfl hne
    | cons d rest =>
        have hdpos : 0 ≤ d := hd d (List.mem_cons_self d rest)
        have hrest : ∀ x ∈ rest, 0 ≤ x :=
          fun x hx => hd x (List.mem_cons_of_mem d hx)
        have hsum : 0 ≤ rest.sum := List.sum_nonneg hrest
        have hstep : (update_storage_used db org_id d freshId).2.usageRows
            org_id = some { id := freshId, organization_id := org_id,
                            monthly_token_limit := none,
                            credit_used_this_period := some 0,
                            storage_used_bytes := some (max 0 d),
                            storage_limit_bytes := none } := by
          simp [update_storage_used, hu]
        rw [max_eq_right hdpos] at hstep
        have hrec := apply_storage_deltas_sum rest
          (update_storage_used db org_id d freshId).2 org_id freshId _ d
          hstep rfl hdpos hrest
        show ((apply_storage_deltas (update_storage_used db org_id d
            freshId).2 org_id rest freshId).usageRows org_id).map
          UsageLimitsRow.storage_used_bytes =
            some (some (max 0 (d :: rest).sum))
        rw [hrec, List.sum_cons, max_eq_right (by omega)]

/-- Witness for C2: a row holding 7 plus delta 5; creation from no row; the
fold over deltas `[3, 4]`. -/
theorem update_storage_used_spec_witness :
    ((update_storage_used dbSeven "o1" 5 "f1").1 = max 0 (7 + 5) ∧
      ((update_storage_used dbSeven "o1" 5 "f1").2.usageRows "o1").map
        UsageLimitsRow.storage_used_bytes = some (some (max 0 (7 + 5)))) ∧
    ((update_storage_used dbEmpty "o9" 5 "f1").1 = max 0 5 ∧
      ((update_storage_used dbEmpty "o9" 5 "f1").2.usageRows "o9").map
        UsageLimitsRow.storage_used_bytes = some (some (max 0 5))) ∧
    ((apply_storage_deltas dbEmpty "o9" [3, 4] "f1").usageRows "o9").map
      UsageLimitsRow.storage_used_bytes =
        some (some (max 0 ([3, 4] : List Int).sum)) :=
  ⟨(update_storage_used_spec dbSeven "o1" "f1" 5 rowSeven 7).1 (by decide) rfl,
   (update_storage_used_spec dbEmpty "o9" "f1" 5 rowSeven 0).2.1 rfl,
   (update_storage_used_spec dbEmpty "o9" "f1" 5 rowSeven 0).2.2 [3, 4] rfl
     (by decide) (by decide)⟩

/-! ### C3: the token admission decision -/

/-- C3: with no counter row the token check returns the unlimited verdict
(`allowed = true`, `monthly_limit = null`, zero usage); a null resolved limit
always allows; a non-null resolved limit `L` allows exactly when
`tokens_used + estimated_tokens <= L`. -/
theorem check_token_limit_spec (db : DBState) (org_id : String)
    (estimated_tokens : Int) :
    (db.usageRows org_id = none →
      check_token_limit db org_id estimated_tokens =
        { allowed := true, tokens_used_this_period := 0,
          monthly_limit := none, remaining_tokens := none,
          percentage_used := 0 }) ∧
    ((check_token_limit db org_id estimated_tokens).monthly_limit = none →
      (check_token_limit db org_id estimated_tokens).allowed = true) ∧
    (∀ L, (check_token_limit db org_id estimated_tokens).monthly_limit =
        some L →
      ((check_token_limit db org_id estimated_tokens).allowed = true ↔
        (check_token_limit db org_id estimated_tokens).tokens_used_this_period
          + estimated_tokens ≤ L)) := by
  refine ⟨fun hu => by simp [check_token_limit, hu], ?_, ?_⟩
  · cases hu : db.usageRows org_id with
    | none => intro _; simp [check_token_limit, hu]
    | some u =>
        cases ho : db.orgs org_id with
        | none => intro _; simp [check_token_limit, hu, ho]
        | some org =>
            cases hm : resolved_monthly_limit u.monthly_token_limit
                (org.plan_id.bind db.plans) with
            | none => intro _; simp [check_token_limit, hu, ho, hm]
            | some l =>
                intro hnone
                simp [check_token_limit, hu, ho, hm] at hnone
  · intro L hL
    cases hu : db.usageRows org_id with
    | none => simp [check_token_limit, hu] at hL
    | some u =>
        cases ho : db.orgs org_id with
        | none => simp [check_token_limit, hu, ho] at hL
        | some org =>
            cases hm : resolved_monthly_limit u.monthly_token_limit
                (org.plan_id.bind db.plans) with
            | none => simp [check_token_limit, hu, ho, hm] at hL
            | some l =>
                have hlL : l = L := by
                  simpa [check_token_limit, hu, ho, hm] using hL
                subst hlL
                simp [check_token_limit, hu, ho, hm]

/-- Witness for C3: the missing-row verdict at an empty state and the bounded
verdict at the 450_000-of-500_000 state. -/
theorem check_token_limit_spec_witness :
    check_token_limit dbEmpty "o9" 3 =
      { allowed := true, tokens_used_this_period := 0, monthly_limit := none,
        remaining_tokens := none, percentage_used := 0 } ∧
    ((check_token_limit dbTok "o1" 0).allowed = true ↔
      (check_token_limit dbTok "o1" 0).tokens_used_this_period + 0 ≤
        500000) :=
  ⟨(check_token_limit_spec dbEmpty "o9" 3).1 rfl,
   (check_token_limit_spec dbTok "o1" 0).2.2 500000 (by decide)⟩

/-! ### C4: committing token deltas -/

/-- C4 counterexample: `update_tokens_used` adds whatever it is given, with no
floor — committing `-1` against a counter at 5 yields 4, strictly below the
previous value, refuting "for every call the resulting value is greater than
or equal to the previous value". -/
theorem update_tokens_used_counterexample :
    current_tokens_counter dbFive "o1" = 5 ∧
    (update_tokens_used dbFive "o1" (-1) "f1").1 = 4 ∧
    ¬ current_tokens_counter dbFive "o1" ≤
        (update_tokens_used dbFive "o1" (-1) "f1").1 :=
  ⟨by decide, by decide, by decide⟩

/-- C4 (amended): for every call with a non-negative token count against a
non-negative counter, the new value is at least the previous one and
non-negative, and is what gets persisted; a missing row is created holding
the committed tokens; at the scenario state, committing 60_000 over 450_000
yields 510_000 and the follow-up zero-token check against the 500_000 limit
denies with `percentage_used = 102`. -/
theorem update_tokens_used_monotone (db : DBState) (org_id freshId : String)
    (tokens : Int) (h0 : 0 ≤ tokens)
    (h1 : 0 ≤ current_tokens_counter db org_id) :
    current_tokens_counter db org_id ≤
      (update_tokens_used db org_id tokens freshId).1 ∧
    0 ≤ (update_tokens_used db org_id tokens freshId).1 ∧
    current_tokens_counter (update_tokens_used db org_id tokens freshId).2
      org_id = (update_tokens_used db org_id tokens freshId).1 ∧
    (db.usageRows org_id = none →
      (update_tokens_used db org_id tokens freshId).2.usageRows org_id =
        some { id := freshId, organization_id := org_id,
               monthly_token_limit := none,
               credit_used_this_period := some tokens,
               storage_used_bytes := some 0,
               storage_limit_bytes := none }) ∧
    (update_tokens_used dbTok "o1" 60000 "f2").1 = 510000 ∧
    check_token_limit (update_tokens_used dbTok "o1" 60000 "f2").2 "o1" 0 =
      { allowed := false, tokens_used_this_period := 510000,
        monthly_limit := some 500000, remaining_tokens := some 0,
        percentage_used := 102 } := by
  refine ⟨?_, ?_, ?_, ?_, by decide, ?_⟩
  · cases hu : db.usageRows org_id with
    | some u =>
        simp only [current_tokens_counter, update_tokens_used, hu]
        omega
    | none =>
        simp only [current_tokens_counter, update_tokens_used, hu]
        omega
  · cases hu : db.usageRows org_id with
    | some u =>
        simp only [current_tokens_counter, update_tokens_used, hu] at h1 ⊢
        omega
    | none => simp only [update_tokens_used, hu]; omega
  · cases hu : db.usageRows org_id with
    | some u => simp [current_tokens_counter, update_tokens_used, hu]
    | none => simp [current_tokens_counter, update_tokens_used, hu]
  · intro hu
    simp [update_tokens_used, hu]
  · norm_num [check_token_limit, update_tokens_used, dbTok, rowTok, orgFree,
      resolved_monthly_limit, pyRound2, roundHalfEven]

/-- Witness for C4 at the scenario state. -/
theorem update_tokens_used_monotone_witness :
    current_tokens_counter dbTok "o1" ≤
      (update_tokens_used dbTok "o1" 60000 "f2").1 ∧
    0 ≤ (update_tokens_used dbTok "o1" 60000 "f2").1 ∧
    current_tokens_counter (update_tokens_used dbTok "o1" 60000 "f2").2
      "o1" = (update_tokens_used dbTok "o1" 60000 "f2").1 ∧
    (dbTok.usageRows "o1" = none →
      (update_tokens_used dbTok "o1" 60000 "f2").2.usageRows "o1" =
        some { id := "f2", organization_id := "o1",
               monthly_token_limit := none,
               credit_used_this_period := some 60000,
               storage_used_bytes := some 0,
               storage_limit_bytes := none }) ∧
    (update_tokens_used dbTok "o1" 60000 "f2").1 = 510000 ∧
    check_token_limit (update_tokens_used dbTok "o1" 60000 "f2").2 "o1" 0 =
      { allowed := false, tokens_used_this_period := 510000,
        monthly_limit := some 500000, remaining_tokens := some 0,
        percentage_used := 102 } :=
  update_tokens_used_monotone dbTok "o1" "f2" 60000 (by decide) (by decide)

end Biz2Bricks

namespace Biz2Bricks

/-! ### C7: storage reconciliation -/

/-- Writing back the value a row's `storage_used_bytes` already holds is the
identity on the row. -/
theorem set_storage_eq_self (u : UsageLimitsRow) (c : Option Int)
    (h : u.storage_used_bytes = c) :
    { u with storage_used_bytes := c } = u := by
  cases u
  simp_all

/-- Replacing `usageRows` by an equal function is the identity on the
state. -/
theorem set_usageRows_eq_self (db : DBState)
    (rows : String → Option UsageLimitsRow) (h : rows = db.usageRows) :
    { db with usageRows := rows } = db := by
  rw [h]

/-- C7: `recalculate_storage` returns the sum of `file_size` over the
organization's active documents and persists exactly that value into the
counter row (upsert, never merging with the old value); running it a second
time with no intervening document changes returns the same value and leaves
the state exactly as after the first run. -/
theorem recalculate_storage_spec (db : DBState) (org_id f1 f2 : String) :
    (recalculate_storage db org_id f1).1 =
      compute_storage_from_documents db org_id ∧
    ((recalculate_storage db org_id f1).2.usageRows org_id).map
      UsageLimitsRow.storage_used_bytes =
        some (some (compute_storage_from_documents db org_id)) ∧
    (recalculate_storage (recalculate_storage db org_id f1).2 org_id f2).1 =
      (recalculate_storage db org_id f1).1 ∧
    (recalculate_storage (recalculate_storage db org_id f1).2 org_id f2).2 =
      (recalculate_storage db org_id f1).2 := by
  have hr1 : ∃ r, (recalculate_storage db org_id f1).2.usageRows org_id =
      some r ∧ r.storage_used_bytes =
        some (compute_storage_from_documents db org_id) := by
    cases hu : db.usageRows org_id <;> simp [recalculate_storage, hu]
  obtain ⟨r1, hrow, hstore⟩ := hr1
  have hdocs : compute_storage_from_documents
      (recalculate_storage db org_id f1).2 org_id =
      compute_storage_from_documents db org_id := rfl
  refine ⟨rfl, ?_, rfl, ?_⟩
  · rw [hrow]
    simp [hstore]
  · apply set_usageRows_eq_self
    funext o
    by_cases ho : o = org_id
    · subst ho
      rw [if_pos rfl]
      simp only [hrow]
      rw [hdocs, set_storage_eq_self r1 _ hstore]
    · rw [if_neg ho]

/-! ### C8: fire-and-forget event logging -/

/-- C8: a `log_token_usage` call whose non-null `request_id` is already
persisted returns no id and leaves the state unchanged (the unique-constraint
failure is swallowed); every call preserves "at most one event row per
request_id"; and two calls with the same fresh `request_id` leave exactly one
matching row. -/
theorem log_token_usage_spec (db : DBState) (f1 f2 org_id : String)
    (user_id : Option String) (feature model provider : String)
    (input_tokens output_tokens : Int) (input_cost output_cost : ℚ)
    (cached_tokens : Int) (extra : Option (List (String × String)))
    (r : String) :
    (0 < count_request db.events r →
      log_token_usage db f1 org_id user_id feature model provider
        input_tokens output_tokens input_cost output_cost cached_tokens
        (some r) extra = (none, db)) ∧
    (∀ rid, count_request db.events r ≤ 1 →
      count_request (log_token_usage db f1 org_id user_id feature model
        provider input_tokens output_tokens input_cost output_cost
        cached_tokens rid extra).2.events r ≤ 1) ∧
    (count_request db.events r = 0 →
      count_request (log_token_usage (log_token_usage db f1 org_id user_id
          feature model provider input_tokens output_tokens input_cost
          output_cost cached_tokens (some r) extra).2 f2 org_id user_id
        feature model provider input_tokens output_tokens input_cost
        output_cost cached_tokens (some r) extra).2.events r = 1) := by
  refine ⟨?_, ?_, ?_⟩
  · intro hpos
    have hpos' : 0 < db.events.countP
        (fun e => e.request_id == some r) := hpos
    have hany : db.events.any (fun e => e.request_id == some r) = true := by
      rw [List.any_eq_true]
      obtain ⟨e, he, hp⟩ := List.countP_pos_iff.mp hpos'
      exact ⟨e, he, hp⟩
    simp [log_token_usage, hany]
  · intro rid hle
    cases rid with
    | none =>
        simpa [log_token_usage, count_request, List.countP_append,
          List.countP_cons] using hle
    | some r2 =>
        by_cases hdup : db.events.any (fun e => e.request_id == some r2) = true
        · simpa [log_token_usage, hdup] using hle
        · simp only [Bool.not_eq_true] at hdup
          by_cases hr : r2 = r
          · subst hr
            have h0 : db.events.countP
                (fun e => e.request_id == some r2) = 0 := by
              rw [List.countP_eq_zero]
              intro a ha
              exact List.any_eq_false.mp hdup a ha
            simp [log_token_usage, hdup, count_request, List.countP_append,
              List.countP_cons, h0]
          · simpa [log_token_usage, hdup, count_request, List.countP_append,
              List.countP_cons, hr] using hle
  · intro h0
    have h0' : db.events.countP (fun e => e.request_id == some r) = 0 := h0
    have hany1 : db.events.any (fun e => e.request_id == some r) = false := by
      rw [List.any_eq_false]
      intro e he
      exact List.countP_eq_zero.mp h0' e he
    simp [log_token_usage, hany1, count_request, List.countP_append,
      List.countP_cons, List.any_append, h0']

/-- Witness for C8: the duplicate-suppressing return at a state already
holding the request id, invariant preservation there, and the
exactly-one-row outcome of a double record from the empty state. -/
theorem log_token_usage_spec_witness :
    (log_token_usage dbEvent "e9" "o1" none "chat" "m1" "prov" 1 2 0 0 0
      (some "r1") none = (none, dbEvent)) ∧
    count_request (log_token_usage dbEvent "e9" "o1" none "chat" "m1" "prov"
      1 2 0 0 0 (some "r1") none).2.events "r1" ≤ 1 ∧
    count_request (log_token_usage (log_token_usage dbEmpty "e1" "o1" none
        "chat" "m1" "prov" 1 2 0 0 0 (some "r1") none).2 "e2" "o1" none
      "chat" "m1" "prov" 1 2 0 0 0 (some "r1") none).2.events "r1" = 1 :=
  ⟨(log_token_usage_spec dbEvent "e9" "e9" "o1" none "chat" "m1" "prov"
      1 2 0 0 0 none "r1").1 (by decide),
   (log_token_usage_spec dbEvent "e9" "e9" "o1" none "chat" "m1" "prov"
      1 2 0 0 0 none "r1").2.1 (some "r1") (by decide),
   (log_token_usage_spec dbEmpty "e1" "e2" "o1" none "chat" "m1" "prov"
      1 2 0 0 0 none "r1").2.2 rfl⟩

end Biz2Bricks

namespace Biz2Bricks

/-- Witness for C7 at the concrete document-table state. -/
theorem recalculate_storage_spec_witness :
    (recalculate_storage dbFallback "o1" "g1").1 =
      compute_storage_from_documents dbFallback "o1" ∧
    ((recalculate_storage dbFallback "o1" "g1").2.usageRows "o1").map
      UsageLimitsRow.storage_used_bytes =
        some (some (compute_storage_from_documents dbFallback "o1")) ∧
    (recalculate_storage (recalculate_storage dbFallback "o1" "g1").2 "o1"
        "g2").1 = (recalculate_storage dbFallback "o1" "g1").1 ∧
    (recalculate_storage (recalculate_storage dbFallback "o1" "g1").2 "o1"
        "g2").2 = (recalculate_storage dbFallback "o1" "g1").2 :=
  recalculate_storage_spec dbFallback "o1" "g1" "g2"

end Biz2Bricks
